import Mathlib

/-!
Verification of `ci/config_checker.py`, a CI tool that validates YAML
configuration files against JSON Schema documents.

The development shallowly embeds the script:

* `Json` models the structured documents produced by parsing the YAML/JSON
  input files (`yaml.safe_load` / `json.load`).
* `Schema`, `validate` and `conforms` model the external `jsonschema`
  library on the JSON Schema fragment exercised by the tool
  (`type`, `enum`, `required`, `properties`): `validate` is the
  error-reporting evaluator (first violation, as `jsonschema.validate`
  raising `ValidationError`), `conforms` is the declarative semantics,
  and the two are proved to agree.
* `config_validation`, `mirrorStep` and `main` are translated line by line
  from the script; `main` returns the process exit code together with the
  list of emitted log records (level and message, in emission order).
* `YamlFileType_call`, `JsonFileType_call`, `parse_args` and `processRun`
  model the argparse layer: each input file is given as its path together
  with the outcome of parsing its text (`Parsed.ok` for a well-formed
  file, `Parsed.bad` carrying the parser error for a malformed one), and
  an `ArgumentTypeError` aborts the run before `main` is reached.
-/

namespace ConfigChecker

/-- Structured documents as produced by `yaml.safe_load` / `json.load`:
null, booleans, numbers, strings, sequences and mappings. -/
inductive Json where
  | null : Json
  | bool : Bool → Json
  | num : Int → Json
  | str : String → Json
  | arr : List Json → Json
  | obj : List (String × Json) → Json

/-- A parsed JSON Schema document, restricted to the fragment modelled
here: an optional `type` constraint, a `required` key list, `properties`
subschemas and an optional `enum` list. -/
inductive Schema where
  | mk : Option String → List String → List (String × Schema) → Option (List Json) → Schema

mutual

/-- Structural equality of documents (the equality `jsonschema` uses for
`enum` membership). -/
def jsonEq : Json → Json → Bool
  | .null, .null => true
  | .bool a, .bool b => a == b
  | .num a, .num b => a == b
  | .str a, .str b => a == b
  | .arr xs, .arr ys => jsonListEq xs ys
  | .obj xs, .obj ys => jsonObjEq xs ys
  | _, _ => false

/-- Pointwise equality of document sequences. -/
def jsonListEq : List Json → List Json → Bool
  | [], [] => true
  | x :: xs, y :: ys => jsonEq x y && jsonListEq xs ys
  | _, _ => false

/-- Pointwise equality of document mappings (field order significant). -/
def jsonObjEq : List (String × Json) → List (String × Json) → Bool
  | [], [] => true
  | (k, v) :: xs, (k2, v2) :: ys => k == k2 && jsonEq v v2 && jsonObjEq xs ys
  | _, _ => false

end

/-- Does a document belong to the named JSON Schema primitive type? -/
def typeMatches (t : String) : Json → Bool
  | .null => t == "null"
  | .bool _ => t == "boolean"
  | .num _ => t == "number" || t == "integer"
  | .str _ => t == "string"
  | .arr _ => t == "array"
  | .obj _ => t == "object"

/-- Combine two optional error messages, keeping the first. -/
def firstErr : Option String → Option String → Option String
  | some e, _ => some e
  | none, r => r

/-- Check the `type` keyword, reporting the first violation. -/
def checkType (t : Option String) (doc : Json) : Option String :=
  match t with
  | none => none
  | some tn => if typeMatches tn doc then none else some ("value is not of type " ++ tn)

/-- Check the `enum` keyword, reporting the first violation. -/
def checkEnum (e : Option (List Json)) (doc : Json) : Option String :=
  match e with
  | none => none
  | some vs =>
      if vs.any (fun v => jsonEq v doc) then none
      else some ("value is not one of the enumerated values")

/-- Check the `required` keyword (which constrains mappings only),
reporting the first missing key. -/
def checkRequired (req : List String) (doc : Json) : Option String :=
  match doc with
  | .obj fields =>
      match req.find? (fun k => (List.lookup k fields).isNone) with
      | some k => some ("required property is missing: " ++ k)
      | none => none
  | _ => none

mutual

/-- Model of `jsonschema.validate` on the embedded fragment: `none` when
the document conforms, otherwise the message of the first violation
encountered (the `ValidationError` the library raises). -/
def validate (s : Schema) (doc : Json) : Option String :=
  match s with
  | .mk t req props enums =>
    firstErr (checkType t doc) (firstErr (checkEnum enums doc) (firstErr (checkRequired req doc)
      (match doc with
       | .obj fields => validateProps props fields
       | _ => none)))

/-- Check each `properties` subschema against the corresponding field of
the mapping, when that field is present. -/
def validateProps (props : List (String × Schema)) (fields : List (String × Json)) : Option String :=
  match props with
  | [] => none
  | (k, sub) :: rest =>
    match List.lookup k fields with
    | some v => firstErr (validate sub v) (validateProps rest fields)
    | none => validateProps rest fields

end

/-- Declarative reading of the `type` keyword. -/
def typeOk (t : Option String) (doc : Json) : Bool :=
  match t with
  | none => true
  | some tn => typeMatches tn doc

/-- Declarative reading of the `enum` keyword. -/
def enumOk (e : Option (List Json)) (doc : Json) : Bool :=
  match e with
  | none => true
  | some vs => vs.any (fun v => jsonEq v doc)

/-- Declarative reading of the `required` keyword. -/
def requiredOk (req : List String) (doc : Json) : Bool :=
  match doc with
  | .obj fields => req.all (fun k => (List.lookup k fields).isSome)
  | _ => true

mutual

/-- Declarative conformance of a document to a schema of the fragment. -/
def conforms (s : Schema) (doc : Json) : Bool :=
  match s with
  | .mk t req props enums =>
    typeOk t doc && enumOk enums doc && requiredOk req doc &&
      (match doc with
       | .obj fields => conformsProps props fields
       | _ => true)

/-- Declarative conformance of a mapping to a `properties` list. -/
def conformsProps (props : List (String × Schema)) (fields : List (String × Json)) : Bool :=
  match props with
  | [] => true
  | (k, sub) :: rest =>
    (match List.lookup k fields with
     | some v => conforms sub v
     | none => true) && conformsProps rest fields

end

/-! ## The script itself -/

/-- The value `YamlFileType.__call__` builds for a config file: the file
path together with the parsed document. -/
structure ConfigFile where
  config_path : String
  config_data : Json

/-- The argparse namespace `create_parser().parse_args()` produces. -/
structure Arguments where
  service_config : ConfigFile
  service_config_json_schema : Schema
  mirror_configs : List ConfigFile
  mirror_config_json_schema : Option Schema

/-- Level of an emitted log record. -/
inductive LogLevel where
  | info : LogLevel
  | error : LogLevel
deriving DecidableEq

/-- One record emitted through `logger`: its level and formatted message
(the `asctime`/`name` prefix added by the logging format is wall-clock
environment, not part of the model). -/
structure LogLine where
  level : LogLevel
  message : String
deriving DecidableEq

/-- Model of `jsonschema.validate`: returns normally on a conforming
document and raises `ValidationError` (the `Except.error` branch,
carrying `str(err)`) on the first violation. -/
def jsonschema_validate (json_schema : Schema) (inst : Json) : Except String Unit :=
  match validate json_schema inst with
  | none => Except.ok ()
  | some e => Except.error e

/-- Translation of `config_validation`: calls `jsonschema.validate`,
returning `(True, None)` on success and `(False, str(err))` when a
`ValidationError` is caught. -/
def config_validation (config_data : Json) (json_schema : Schema) : Bool × Option String :=
  match jsonschema_validate json_schema config_data with
  | Except.ok _ => (true, none)
  | Except.error err => (false, some err)

/-- How Python `%s`-formats an `Optional[str]`. -/
def pyStr : Option String → String
  | some s => s
  | none => "None"

/-- Message of the `logger.error` call for an invalid service config. -/
def mainConfigErrorMsg (path err : String) : String :=
  "Main config \"" ++ path ++ "\" is invalid because \"" ++ err ++ "\""

/-- Message of the `logger.error` call inside the mirror loop. -/
def mirrorConfigErrorMsg (path err : String) : String :=
  "The mirror config \"" ++ path ++ "\" is invalid because \"" ++ err ++ "\""

/-- Message of the final `logger.info` call. -/
def allValidMsg : String := "All configs are valid"

/-- One iteration of the `for mirror_config in arguments.mirror_configs`
loop of `main`: note that, exactly as in the source, the validation call
is over `arguments.service_config` and the service schema; only the error
log line mentions the mirror. The accumulator carries `exit_code` and the
log emitted so far. -/
def mirrorStep (arguments : Arguments) (acc : Nat × List LogLine) (mirror_config : ConfigFile) :
    Nat × List LogLine :=
  let r := config_validation arguments.service_config.config_data
    arguments.service_config_json_schema
  if r.1 = false then
    (1, acc.2 ++ [LogLine.mk LogLevel.error
      (mirrorConfigErrorMsg mirror_config.config_path (pyStr r.2))])
  else
    acc

/-- Translation of `main`: returns the process exit code (the argument of
`exit`) together with the log records emitted, in order. -/
def main (arguments : Arguments) : Nat × List LogLine :=
  let r := config_validation arguments.service_config.config_data
    arguments.service_config_json_schema
  if r.1 = false then
    (1, [LogLine.mk LogLevel.error
      (mainConfigErrorMsg arguments.service_config.config_path (pyStr r.2))])
  else
    let final := arguments.mirror_configs.foldl (mirrorStep arguments) (0, [])
    if final.1 = 0 then (0, final.2 ++ [LogLine.mk LogLevel.info allValidMsg]) else final

/-- The sequence of boolean outcomes of the `config_validation` calls
`main` performs, in order: the service check first and, when it passes,
one call per supplied mirror config (each of which, as in the source,
revalidates the service config against the service schema). -/
def performedValidations (arguments : Arguments) : List Bool :=
  let r := config_validation arguments.service_config.config_data
    arguments.service_config_json_schema
  if r.1 = false then [false]
  else r.1 :: arguments.mirror_configs.map (fun _ =>
    (config_validation arguments.service_config.config_data
      arguments.service_config_json_schema).1)

/-! ## The argparse layer -/

/-- Outcome of handing a file to the underlying text parser
(`yaml.safe_load` / `json.load`): either the structured value it returns,
or the parser error raised on malformed text. -/
inductive Parsed (α : Type) where
  | ok : α → Parsed α
  | bad : String → Parsed α

/-- Is the file malformed? -/
def Parsed.isBad : Parsed α → Bool
  | .ok _ => false
  | .bad _ => true

/-- Message of the `ArgumentTypeError` raised by `YamlFileType.__call__`. -/
def yamlInvalidMsg (path err : String) : String :=
  "The YAML file by path \"" ++ path ++ "\" is invalid because \"" ++ err ++ "\""

/-- Message of the `ArgumentTypeError` raised by `JsonFileType.__call__`. -/
def jsonInvalidMsg (path err : String) : String :=
  "The JSON file by path \"" ++ path ++ "\" is invalid because \"" ++ err ++ "\""

/-- Translation of `YamlFileType.__call__`: builds the
`config_path`/`config_data` pair, or raises `ArgumentTypeError`
(the `Except.error` branch) when `yaml.safe_load` fails. -/
def YamlFileType_call (path : String) (content : Parsed Json) : Except String ConfigFile :=
  match content with
  | .ok d => Except.ok (ConfigFile.mk path d)
  | .bad e => Except.error (yamlInvalidMsg path e)

/-- Translation of `JsonFileType.__call__`: returns the parsed JSON
document (here, the schema it encodes), or raises `ArgumentTypeError`
when `json.load` fails. -/
def JsonFileType_call (path : String) (content : Parsed Schema) : Except String Schema :=
  match content with
  | .ok s => Except.ok s
  | .bad e => Except.error (jsonInvalidMsg path e)

/-- Conversion of the `-mc` file list, in order, as argparse performs it;
the first `ArgumentTypeError` aborts. -/
def loadMirrors : List (String × Parsed Json) → Except String (List ConfigFile)
  | [] => Except.ok []
  | p :: rest =>
    match YamlFileType_call p.1 p.2 with
    | Except.error e => Except.error e
    | Except.ok c =>
      match loadMirrors rest with
      | Except.error e => Except.error e
      | Except.ok cs => Except.ok (c :: cs)

/-- Model of `create_parser().parse_args()`: converts each supplied file
with its argparse type, aborting with the first `ArgumentTypeError`. The
inputs are the four CLI file arguments: `-sc`, `-ss`, the `-mc` list and
the optional `-ms`. -/
def parse_args (sc : String × Parsed Json) (ss : String × Parsed Schema)
    (mcs : List (String × Parsed Json)) (ms : Option (String × Parsed Schema)) :
    Except String Arguments :=
  match YamlFileType_call sc.1 sc.2 with
  | Except.error e => Except.error e
  | Except.ok service =>
    match JsonFileType_call ss.1 ss.2 with
    | Except.error e => Except.error e
    | Except.ok schema =>
      match loadMirrors mcs with
      | Except.error e => Except.error e
      | Except.ok mirrors =>
        match ms with
        | none => Except.ok (Arguments.mk service schema mirrors none)
        | some p =>
          match JsonFileType_call p.1 p.2 with
          | Except.error e => Except.error e
          | Except.ok msch => Except.ok (Arguments.mk service schema mirrors (some msch))

/-- A whole process run: argument parsing followed by `main`. An
`Except.error` is an `ArgumentTypeError` escaping `parse_args`, on which
the process aborts (argparse usage error) before any validation; an
`Except.ok` carries the exit code and the emitted log. -/
def processRun (sc : String × Parsed Json) (ss : String × Parsed Schema)
    (mcs : List (String × Parsed Json)) (ms : Option (String × Parsed Schema)) :
    Except String (Nat × List LogLine) :=
  match parse_args sc ss mcs ms with
  | Except.error e => Except.error e
  | Except.ok arguments => Except.ok (main arguments)

/-- Does any of the four CLI file arguments fail to parse? -/
def anyMalformed (sc : String × Parsed Json) (ss : String × Parsed Schema)
    (mcs : List (String × Parsed Json)) (ms : Option (String × Parsed Schema)) : Bool :=
  sc.2.isBad || ss.2.isBad || (mcs.any fun q => q.2.isBad) ||
    (match ms with
     | none => false
     | some q => q.2.isBad)

/-! ## Concrete fixtures used in the closed theorems -/

/-- A schema requiring an object with a `name` key. -/
def nameSchema : Schema := Schema.mk (some ("object")) ["name"] [] none

/-- A document conforming to `nameSchema`. -/
def goodData : Json := Json.obj [("name", Json.str ("service"))]

/-- A document violating `nameSchema`: the required `name` key is missing. -/
def badData : Json := Json.obj []

/-- A service config that conforms to `nameSchema`. -/
def serviceOk : ConfigFile := ConfigFile.mk ("config.yml") goodData

/-- A service config that violates `nameSchema`. -/
def serviceBad : ConfigFile := ConfigFile.mk ("config.yml") badData

/-- A mirror config that violates `nameSchema`. -/
def mirror1Bad : ConfigFile := ConfigFile.mk ("mirror1.yml") badData

/-- A mirror config that conforms to `nameSchema`. -/
def mirror2Ok : ConfigFile := ConfigFile.mk ("mirror2.yml") (Json.obj [("name", Json.str ("m2"))])

/-- Parsed arguments: valid service config, no mirrors. -/
def argsNoMirrors : Arguments := Arguments.mk serviceOk nameSchema [] none

/-- Parsed arguments: invalid service config, one (valid) mirror supplied. -/
def argsSvcBad : Arguments := Arguments.mk serviceBad nameSchema [mirror2Ok] none

/-- Parsed arguments: valid service config, two mirrors of which the first
violates the schema. -/
def argsTwoMirrors : Arguments := Arguments.mk serviceOk nameSchema [mirror1Bad, mirror2Ok] none

/-- The `-sc` file input: well-formed YAML parsing to `goodData`. -/
def scFileOk : String × Parsed Json := ("config.yml", Parsed.ok goodData)

/-- The `-ss` file input: well-formed JSON parsing to `nameSchema`. -/
def ssFile : String × Parsed Schema := ("schema.json", Parsed.ok nameSchema)

/-- A malformed `-ms` file input: `json.load` raises on its text. -/
def msBadFile : String × Parsed Schema := ("mirror_schema.json", Parsed.bad ("expecting value"))

/-! ## Proofs -/

theorem firstErr_eq_none (a b : Option String) :
    firstErr a b = none ↔ a = none ∧ b = none := by
  cases a <;> simp [firstErr]

theorem firstErr_eq_some (a b : Option String) (e : String)
    (h : firstErr a b = some e) : a = some e ∨ b = some e := by
  cases a <;> simp [firstErr] at h <;> simp [h]

theorem checkType_eq_none (t : Option String) (doc : Json) :
    checkType t doc = none ↔ typeOk t doc = true := by
  cases t with
  | none => simp [checkType, typeOk]
  | some tn =>
    simp only [checkType, typeOk]
    split <;> simp_all

theorem checkEnum_eq_none (e : Option (List Json)) (doc : Json) :
    checkEnum e doc = none ↔ enumOk e doc = true := by
  cases e with
  | none => simp [checkEnum, enumOk]
  | some vs =>
    simp only [checkEnum, enumOk]
    split <;> simp_all

theorem checkRequired_eq_none (req : List String) (doc : Json) :
    checkRequired req doc = none ↔ requiredOk req doc = true := by
  cases doc <;> simp [checkRequired, requiredOk]
  case obj fields =>
    constructor
    · intro h k hk
      cases hfind : List.find? (fun k => (List.lookup k fields).isNone) req with
      | some k2 => simp [hfind] at h
      | none =>
        have := List.find?_eq_none.mp hfind k hk
        simpa using this
    · intro h
      cases hfind : List.find? (fun k => (List.lookup k fields).isNone) req with
      | some k2 =>
        have hmem := List.find?_some hfind
        have hk2 := List.mem_of_find?_eq_some hfind
        have hex := h k2 hk2
        simp at hmem
        obtain ⟨v, hv⟩ := hex
        exact absurd rfl (hmem k2 v hv)
      | none => simp

mutual

/-- The error-reporting evaluator accepts exactly the conforming documents. -/
theorem validate_eq_none : ∀ (s : Schema) (doc : Json),
    validate s doc = none ↔ conforms s doc = true
  | .mk t req props enums, .obj fields => by
    rw [validate, conforms]
    simp only [firstErr_eq_none, checkType_eq_none, checkEnum_eq_none, checkRequired_eq_none,
      Bool.and_eq_true]
    rw [validateProps_eq_none props fields]
    tauto
  | .mk t req props enums, .null => by
    rw [validate, conforms]
    simp only [firstErr_eq_none, checkType_eq_none, checkEnum_eq_none, checkRequired_eq_none,
      Bool.and_eq_true]
    · tauto
    all_goals (intro fields h; exact Json.noConfusion h)
  | .mk t req props enums, .bool b => by
    rw [validate, conforms]
    simp only [firstErr_eq_none, checkType_eq_none, checkEnum_eq_none, checkRequired_eq_none,
      Bool.and_eq_true]
    · tauto
    all_goals (intro fields h; exact Json.noConfusion h)
  | .mk t req props enums, .num n => by
    rw [validate, conforms]
    simp only [firstErr_eq_none, checkType_eq_none, checkEnum_eq_none, checkRequired_eq_none,
      Bool.and_eq_true]
    · tauto
    all_goals (intro fields h; exact Json.noConfusion h)
  | .mk t req props enums, .str s => by
    rw [validate, conforms]
    simp only [firstErr_eq_none, checkType_eq_none, checkEnum_eq_none, checkRequired_eq_none,
      Bool.and_eq_true]
    · tauto
    all_goals (intro fields h; exact Json.noConfusion h)
  | .mk t req props enums, .arr xs => by
    rw [validate, conforms]
    simp only [firstErr_eq_none, checkType_eq_none, checkEnum_eq_none, checkRequired_eq_none,
      Bool.and_eq_true]
    · tauto
    all_goals (intro fields h; exact Json.noConfusion h)

/-- The per-property evaluator accepts exactly the conforming mappings. -/
theorem validateProps_eq_none : ∀ (props : List (String × Schema)) (fields : List (String × Json)),
    validateProps props fields = none ↔ conformsProps props fields = true
  | [], fields => by simp [validateProps, conformsProps]
  | (k, sub) :: rest, fields => by
    rw [validateProps, conformsProps]
    cases h : List.lookup k fields with
    | none =>
      simp only [Bool.true_and]
      exact validateProps_eq_none rest fields
    | some v =>
      simp only [firstErr_eq_none, Bool.and_eq_true]
      rw [validate_eq_none sub v, validateProps_eq_none rest fields]

end

theorem append_ne_empty (a b : String) (h : a.length ≠ 0) : a ++ b ≠ "" := by
  intro hc
  have hl := congrArg String.length hc
  simp at hl
  exact h hl.1

theorem checkType_msg_ne_empty (t : Option String) (doc : Json) (e : String)
    (h : checkType t doc = some e) : e ≠ "" := by
  cases t with
  | none => exact Option.noConfusion h
  | some tn =>
    by_cases hm : typeMatches tn doc
    · simp [checkType, hm] at h
    · simp [checkType, hm] at h
      subst h
      exact append_ne_empty _ _ (by decide)

theorem checkEnum_msg_ne_empty (en : Option (List Json)) (doc : Json) (e : String)
    (h : checkEnum en doc = some e) : e ≠ "" := by
  cases en with
  | none => exact Option.noConfusion h
  | some vs =>
    by_cases hm : vs.any (fun v => jsonEq v doc)
    · simp [checkEnum, hm] at h
    · simp [checkEnum, hm] at h
      subst h
      decide

theorem checkRequired_msg_ne_empty (req : List String) (doc : Json) (e : String)
    (h : checkRequired req doc = some e) : e ≠ "" := by
  cases doc <;> simp [checkRequired] at h
  case obj fields =>
    cases hfind : List.find? (fun k => (List.lookup k fields).isNone) req with
    | none => simp [hfind] at h
    | some k =>
      simp [hfind] at h
      subst h
      exact append_ne_empty _ _ (by decide)

mutual

/-- Every violation message produced by the evaluator is non-empty. -/
theorem validate_msg_ne_empty : ∀ (s : Schema) (doc : Json) (e : String),
    validate s doc = some e → e ≠ ""
  | .mk t req props enums, .obj fields, e => by
    rw [validate]
    intro h
    rcases firstErr_eq_some _ _ _ h with h1 | h2
    · exact checkType_msg_ne_empty t _ e h1
    rcases firstErr_eq_some _ _ _ h2 with h3 | h4
    · exact checkEnum_msg_ne_empty enums _ e h3
    rcases firstErr_eq_some _ _ _ h4 with h5 | h6
    · exact checkRequired_msg_ne_empty req _ e h5
    exact validateProps_msg_ne_empty props fields e h6
  | .mk t req props enums, .null, e => by
    rw [validate]
    intro h
    rcases firstErr_eq_some _ _ _ h with h1 | h2
    · exact checkType_msg_ne_empty t _ e h1
    rcases firstErr_eq_some _ _ _ h2 with h3 | h4
    · exact checkEnum_msg_ne_empty enums _ e h3
    rcases firstErr_eq_some _ _ _ h4 with h5 | h6
    · exact checkRequired_msg_ne_empty req _ e h5
    · exact Option.noConfusion h6
    all_goals (intro fields hf; exact Json.noConfusion hf)
  | .mk t req props enums, .bool b, e => by
    rw [validate]
    intro h
    rcases firstErr_eq_some _ _ _ h with h1 | h2
    · exact checkType_msg_ne_empty t _ e h1
    rcases firstErr_eq_some _ _ _ h2 with h3 | h4
    · exact checkEnum_msg_ne_empty enums _ e h3
    rcases firstErr_eq_some _ _ _ h4 with h5 | h6
    · exact checkRequired_msg_ne_empty req _ e h5
    · exact Option.noConfusion h6
    all_goals (intro fields hf; exact Json.noConfusion hf)
  | .mk t req props enums, .num n, e => by
    rw [validate]
    intro h
    rcases firstErr_eq_some _ _ _ h with h1 | h2
    · exact checkType_msg_ne_empty t _ e h1
    rcases firstErr_eq_some _ _ _ h2 with h3 | h4
    · exact checkEnum_msg_ne_empty enums _ e h3
    rcases firstErr_eq_some _ _ _ h4 with h5 | h6
    · exact checkRequired_msg_ne_empty req _ e h5
    · exact Option.noConfusion h6
    all_goals (intro fields hf; exact Json.noConfusion hf)
  | .mk t req props enums, .str s, e => by
    rw [validate]
    intro h
    rcases firstErr_eq_some _ _ _ h with h1 | h2
    · exact checkType_msg_ne_empty t _ e h1
    rcases firstErr_eq_some _ _ _ h2 with h3 | h4
    · exact checkEnum_msg_ne_empty enums _ e h3
    rcases firstErr_eq_some _ _ _ h4 with h5 | h6
    · exact checkRequired_msg_ne_empty req _ e h5
    · exact Option.noConfusion h6
    all_goals (intro fields hf; exact Json.noConfusion hf)
  | .mk t req props enums, .arr xs, e => by
    rw [validate]
    intro h
    rcases firstErr_eq_some _ _ _ h with h1 | h2
    · exact checkType_msg_ne_empty t _ e h1
    rcases firstErr_eq_some _ _ _ h2 with h3 | h4
    · exact checkEnum_msg_ne_empty enums _ e h3
    rcases firstErr_eq_some _ _ _ h4 with h5 | h6
    · exact checkRequired_msg_ne_empty req _ e h5
    · exact Option.noConfusion h6
    all_goals (intro fields hf; exact Json.noConfusion hf)

/-- Every violation message produced for a `properties` list is non-empty. -/
theorem validateProps_msg_ne_empty :
    ∀ (props : List (String × Schema)) (fields : List (String × Json)) (e : String),
    validateProps props fields = some e → e ≠ ""
  | [], fields, e => by
    rw [validateProps]
    intro h
    exact Option.noConfusion h
  | (k, sub) :: rest, fields, e => by
    rw [validateProps]
    intro h
    cases hl : List.lookup k fields with
    | some v =>
      rw [hl] at h
      rcases firstErr_eq_some _ _ _ h with h1 | h2
      · exact validate_msg_ne_empty sub v e h1
      · exact validateProps_msg_ne_empty rest fields e h2
    | none =>
      rw [hl] at h
      exact validateProps_msg_ne_empty rest fields e h

end

theorem config_validation_fst (d : Json) (s : Schema) :
    (config_validation d s).1 = true ↔ conforms s d = true := by
  rw [config_validation, jsonschema_validate, ← validate_eq_none s d]
  cases h : validate s d <;> simp [h]

theorem config_validation_conform (d : Json) (s : Schema) (h : conforms s d = true) :
    config_validation d s = (true, none) := by
  rw [config_validation, jsonschema_validate, (validate_eq_none s d).mpr h]

theorem config_validation_not_conform (d : Json) (s : Schema) (h : conforms s d = false) :
    ∃ e, config_validation d s = (false, some e) ∧ e ≠ "" := by
  cases hv : validate s d with
  | none =>
    rw [validate_eq_none s d] at hv
    rw [hv] at h
    exact Bool.noConfusion h
  | some e =>
    refine ⟨e, ?_, validate_msg_ne_empty s d e hv⟩
    rw [config_validation, jsonschema_validate, hv]

theorem mirrorStep_of_valid (arguments : Arguments)
    (h : (config_validation arguments.service_config.config_data
      arguments.service_config_json_schema).1 = true)
    (acc : Nat × List LogLine) (mirror_config : ConfigFile) :
    mirrorStep arguments acc mirror_config = acc := by
  rw [mirrorStep]
  simp [h]

theorem foldl_mirrorStep_of_valid (arguments : Arguments)
    (h : (config_validation arguments.service_config.config_data
      arguments.service_config_json_schema).1 = true) :
    ∀ (mcs : List ConfigFile) (acc : Nat × List LogLine),
      List.foldl (mirrorStep arguments) acc mcs = acc
  | [], _ => rfl
  | m :: rest, acc => by
    rw [List.foldl_cons, mirrorStep_of_valid arguments h acc m]
    exact foldl_mirrorStep_of_valid arguments h rest acc

theorem main_of_valid (arguments : Arguments)
    (h : (config_validation arguments.service_config.config_data
      arguments.service_config_json_schema).1 = true) :
    main arguments = (0, [LogLine.mk LogLevel.info allValidMsg]) := by
  rw [main]
  simp [h, foldl_mirrorStep_of_valid arguments h]

theorem main_of_invalid (arguments : Arguments)
    (h : (config_validation arguments.service_config.config_data
      arguments.service_config_json_schema).1 = false) :
    main arguments = (1, [LogLine.mk LogLevel.error
      (mainConfigErrorMsg arguments.service_config.config_path
        (pyStr (config_validation arguments.service_config.config_data
          arguments.service_config_json_schema).2))]) := by
  rw [main]
  simp [h]

theorem performedValidations_of_valid (arguments : Arguments)
    (h : (config_validation arguments.service_config.config_data
      arguments.service_config_json_schema).1 = true) :
    performedValidations arguments =
      true :: arguments.mirror_configs.map (fun _ => true) := by
  rw [performedValidations]
  simp [h]

theorem performedValidations_of_invalid (arguments : Arguments)
    (h : (config_validation arguments.service_config.config_data
      arguments.service_config_json_schema).1 = false) :
    performedValidations arguments = [false] := by
  rw [performedValidations]
  simp [h]

theorem loadMirrors_ok : ∀ (mcs : List (String × Parsed Json)),
    (mcs.all fun q => !q.2.isBad) = true →
    ∃ cfgs, loadMirrors mcs = Except.ok cfgs
  | [], _ => ⟨[], rfl⟩
  | q :: rest, h => by
    obtain ⟨qp, qc⟩ := q
    cases qc with
    | bad e => simp [Parsed.isBad] at h
    | ok d =>
      have h2 : (rest.all fun q => !q.2.isBad) = true := by
        simp only [List.all_cons, Parsed.isBad, Bool.not_false, Bool.true_and] at h
        exact h
      obtain ⟨cfgs, hc⟩ := loadMirrors_ok rest h2
      refine ⟨ConfigFile.mk qp d :: cfgs, ?_⟩
      rw [loadMirrors]
      simp [YamlFileType_call, hc]

theorem loadMirrors_bad : ∀ (mcs : List (String × Parsed Json)),
    (mcs.any fun q => q.2.isBad) = true →
    ∃ p e, loadMirrors mcs = Except.error (yamlInvalidMsg p e) ∧ (p, Parsed.bad e) ∈ mcs
  | [], h => by simp at h
  | q :: rest, h => by
    obtain ⟨qp, qc⟩ := q
    cases qc with
    | bad e =>
      refine ⟨qp, e, ?_, by simp⟩
      rw [loadMirrors]
      rfl
    | ok d =>
      have h2 : (rest.any fun q => q.2.isBad) = true := by
        simp only [List.any_cons, Parsed.isBad, Bool.false_or] at h
        exact h
      obtain ⟨p, e, hle, hmem⟩ := loadMirrors_bad rest h2
      refine ⟨p, e, ?_, by simp [hmem]⟩
      rw [loadMirrors]
      simp [YamlFileType_call, hle]

theorem main_depends_only_on_service (sc : ConfigFile) (ss : Schema)
    (mcs mcs2 : List ConfigFile) (ms ms2 : Option Schema) :
    main (Arguments.mk sc ss mcs ms) = main (Arguments.mk sc ss mcs2 ms2) := by
  cases h : (config_validation sc.config_data ss).1 with
  | false =>
    rw [main_of_invalid (Arguments.mk sc ss mcs ms) h,
      main_of_invalid (Arguments.mk sc ss mcs2 ms2) h]
  | true =>
    rw [main_of_valid (Arguments.mk sc ss mcs ms) h,
      main_of_valid (Arguments.mk sc ss mcs2 ms2) h]

/-! ## Claims -/

/-- C1: the claim states that each supplied mirror config has its own
parsed data validated against the mirror schema when one is provided
(else the service schema), the validation depending on the mirror data.
Evaluating the code refutes this: here the mirror config violates the
supplied mirror schema, yet the run exits 0 and logs only the success
line, because the loop body revalidates `arguments.service_config`
against the service schema and never touches the mirror data or the
mirror schema. -/
theorem c1_mirror_data_never_validated :
    conforms nameSchema mirror1Bad.config_data = false ∧
    main (Arguments.mk serviceOk nameSchema [mirror1Bad] (some nameSchema)) =
      (0, [LogLine.mk LogLevel.info allValidMsg]) :=
  ⟨by decide, by rfl⟩

/-- C2: the claim states that with a conforming service config and two
mirror configs of which one violates the schema, the run exits 1 and
logs one error naming the invalid mirror. Evaluating the code refutes
this: the run exits 0, logs no error and logs the success line, since
the loop revalidates the service config for each mirror. -/
theorem c2_invalid_mirror_not_reported :
    conforms nameSchema serviceOk.config_data = true ∧
    conforms nameSchema mirror1Bad.config_data = false ∧
    main argsTwoMirrors = (0, [LogLine.mk LogLevel.info allValidMsg]) :=
  ⟨by decide, by decide, by rfl⟩

/-- C3: when all input files parse (argument parsing returns `Except.ok`),
the process exit code is 0 if every validation `main` performs succeeds
and 1 if at least one fails. -/
theorem c3_exit_code_aggregates (sc : String × Parsed Json) (ss : String × Parsed Schema)
    (mcs : List (String × Parsed Json)) (ms : Option (String × Parsed Schema))
    (arguments : Arguments)
    (h : parse_args sc ss mcs ms = Except.ok arguments) :
    processRun sc ss mcs ms = Except.ok (main arguments) ∧
    (main arguments).1 = (if (performedValidations arguments).all id then 0 else 1) := by
  constructor
  · rw [processRun, h]
  · cases hv : (config_validation arguments.service_config.config_data
      arguments.service_config_json_schema).1 with
    | false =>
      rw [main_of_invalid arguments hv, performedValidations_of_invalid arguments hv]
      rfl
    | true =>
      rw [main_of_valid arguments hv, performedValidations_of_valid arguments hv]
      simp [List.all_eq_true]

/-- Witness for C3: a concrete run whose inputs all parse. -/
theorem c3_witness :
    processRun scFileOk ssFile [] none = Except.ok (main argsNoMirrors) ∧
    (main argsNoMirrors).1 = (if (performedValidations argsNoMirrors).all id then 0 else 1) :=
  c3_exit_code_aggregates scFileOk ssFile [] none argsNoMirrors (by rfl)

/-- C4 as stated is false at this input: the service config fails
validation while one mirror config is supplied, and the runner terminates
immediately with exit 1 after logging the service error — only one
validation is performed, so the supplied mirror is never checked. -/
theorem c4_counterexample :
    conforms nameSchema serviceBad.config_data = false ∧
    argsSvcBad.mirror_configs.length = 1 ∧
    performedValidations argsSvcBad = [false] ∧
    main argsSvcBad = (1, [LogLine.mk LogLevel.error
      (mainConfigErrorMsg ("config.yml") ("required property is missing: name"))]) :=
  ⟨by decide, by rfl, by rfl, by rfl⟩

/-- C4 amended: failures are recoverable at per-file granularity only
inside the mirror loop — when the service validation passes, one
validation per supplied mirror is performed and the results are
aggregated into the exit code — whereas a service config validation
failure terminates the run immediately with exit 1, before any
mirror-loop validation. -/
theorem c4_amended_granularity (arguments : Arguments) :
    ((config_validation arguments.service_config.config_data
        arguments.service_config_json_schema).1 = false →
      main arguments = (1, [LogLine.mk LogLevel.error
        (mainConfigErrorMsg arguments.service_config.config_path
          (pyStr (config_validation arguments.service_config.config_data
            arguments.service_config_json_schema).2))]) ∧
      performedValidations arguments = [false]) ∧
    ((config_validation arguments.service_config.config_data
        arguments.service_config_json_schema).1 = true →
      (performedValidations arguments).length = 1 + arguments.mirror_configs.length ∧
      (main arguments).1 = 0) :=
  ⟨fun h => ⟨main_of_invalid arguments h, performedValidations_of_invalid arguments h⟩,
   fun h => ⟨by rw [performedValidations_of_valid arguments h]; simp [Nat.add_comm],
     by rw [main_of_valid arguments h]⟩⟩

/-- Witness for the amended C4: an invalid service config aborts the run
immediately; a valid one with two supplied mirrors has all three
validations performed and exits 0. -/
theorem c4_amended_witness :
    (main argsSvcBad = (1, [LogLine.mk LogLevel.error
        (mainConfigErrorMsg argsSvcBad.service_config.config_path
          (pyStr (config_validation argsSvcBad.service_config.config_data
            argsSvcBad.service_config_json_schema).2))]) ∧
      performedValidations argsSvcBad = [false]) ∧
    ((performedValidations argsTwoMirrors).length = 1 + argsTwoMirrors.mirror_configs.length ∧
      (main argsTwoMirrors).1 = 0) :=
  ⟨(c4_amended_granularity argsSvcBad).1 (by rfl),
   (c4_amended_granularity argsTwoMirrors).2 (by rfl)⟩

/-- C5: `config_validation` returns `(True, None)` exactly when the
document conforms to the schema; otherwise it returns `(False, msg)`
where `msg` is the non-empty description of the first violation
encountered. The `ValidationError` raised inside `jsonschema.validate`
is caught and converted; being a total function, `config_validation`
lets no validation error escape. -/
theorem c5_config_validation_contract (config_data : Json) (json_schema : Schema) :
    (config_validation config_data json_schema = (true, none) ↔
      conforms json_schema config_data = true) ∧
    (conforms json_schema config_data = false →
      ∃ e, config_validation config_data json_schema = (false, some e) ∧ e ≠ "") := by
  constructor
  · constructor
    · intro h
      exact (config_validation_fst config_data json_schema).mp (by rw [h])
    · exact config_validation_conform config_data json_schema
  · exact config_validation_not_conform config_data json_schema

/-- Witness for C5: a conforming and a violating concrete document. -/
theorem c5_witness :
    (config_validation goodData nameSchema = (true, none) ↔
      conforms nameSchema goodData = true) ∧
    (∃ e, config_validation badData nameSchema = (false, some e) ∧ e ≠ "") :=
  ⟨(c5_config_validation_contract goodData nameSchema).1,
   (c5_config_validation_contract badData nameSchema).2 (by decide)⟩

/-- C6: if any of the supplied input files is malformed, the run aborts
during argument parsing — before `main` and hence before any schema
validation — with an `ArgumentTypeError` whose message contains the
path of a malformed input file and its underlying parser error. -/
theorem c6_malformed_input_aborts (sc : String × Parsed Json) (ss : String × Parsed Schema)
    (mcs : List (String × Parsed Json)) (ms : Option (String × Parsed Schema))
    (h : anyMalformed sc ss mcs ms = true) :
    ∃ p e m, processRun sc ss mcs ms = Except.error m ∧
      ((p, Parsed.bad e) = sc ∨ (p, Parsed.bad e) = ss ∨ (p, Parsed.bad e) ∈ mcs ∨
        some (p, Parsed.bad e) = ms) ∧
      (∃ a b c, m = a ++ p ++ b ++ e ++ c) := by
  obtain ⟨scp, scc⟩ := sc
  cases scc with
  | bad e =>
    exact ⟨scp, e, yamlInvalidMsg scp e, rfl, Or.inl rfl,
      "The YAML file by path \"", "\" is invalid because \"", "\"", rfl⟩
  | ok d =>
    obtain ⟨ssp, ssc⟩ := ss
    cases ssc with
    | bad e =>
      exact ⟨ssp, e, jsonInvalidMsg ssp e, rfl, Or.inr (Or.inl rfl),
        "The JSON file by path \"", "\" is invalid because \"", "\"", rfl⟩
    | ok sch =>
      by_cases hmir : (mcs.any fun q => q.2.isBad) = true
      · obtain ⟨p, e, hle, hmem⟩ := loadMirrors_bad mcs hmir
        refine ⟨p, e, yamlInvalidMsg p e, ?_, Or.inr (Or.inr (Or.inl hmem)),
          "The YAML file by path \"", "\" is invalid because \"", "\"", rfl⟩
        rw [processRun, parse_args]
        simp [YamlFileType_call, JsonFileType_call, hle]
      · have hall : (mcs.all fun q => !q.2.isBad) = true := by
          simp only [List.all_eq_true]
          intro q hq
          by_contra hbb
          apply hmir
          refine List.any_eq_true.mpr ⟨q, hq, ?_⟩
          simpa using hbb
        obtain ⟨mirrors, hok⟩ := loadMirrors_ok mcs hall
        cases ms with
        | none =>
          exfalso
          apply hmir
          simpa [anyMalformed, Parsed.isBad] using h
        | some q =>
          obtain ⟨qp, qc⟩ := q
          cases qc with
          | ok qs =>
            exfalso
            apply hmir
            simpa [anyMalformed, Parsed.isBad] using h
          | bad e =>
            refine ⟨qp, e, jsonInvalidMsg qp e, ?_, Or.inr (Or.inr (Or.inr rfl)),
              "The JSON file by path \"", "\" is invalid because \"", "\"", rfl⟩
            rw [processRun, parse_args]
            simp [YamlFileType_call, JsonFileType_call, hok]

/-- Witness for C6: a concrete run whose service config file is
malformed YAML. -/
theorem c6_witness :
    ∃ p e m, processRun ("config.yml", Parsed.bad ("mapping values are not allowed here"))
        ssFile [] none = Except.error m ∧
      ((p, (Parsed.bad e : Parsed Json)) =
          ("config.yml", Parsed.bad ("mapping values are not allowed here")) ∨
        (p, (Parsed.bad e : Parsed Schema)) = ssFile ∨
        (p, (Parsed.bad e : Parsed Json)) ∈ ([] : List (String × Parsed Json)) ∨
        some (p, (Parsed.bad e : Parsed Schema)) = (none : Option (String × Parsed Schema))) ∧
      (∃ a b c, m = a ++ p ++ b ++ e ++ c) :=
  c6_malformed_input_aborts ("config.yml", Parsed.bad ("mapping values are not allowed here"))
    ssFile [] none (by decide)

/-- C7: the run logs exactly one informational line — the success line —
iff every performed validation succeeded; in particular, a conforming
service config with zero mirror configs exits 0 with exactly the one
success line. -/
theorem c7_success_line_iff_no_failure (arguments : Arguments) :
    (((main arguments).2.filter fun l => l.level == LogLevel.info) =
        [LogLine.mk LogLevel.info allValidMsg] ↔
      (performedValidations arguments).all id = true) ∧
    (conforms arguments.service_config_json_schema arguments.service_config.config_data = true →
      arguments.mirror_configs = [] →
      main arguments = (0, [LogLine.mk LogLevel.info allValidMsg])) := by
  constructor
  · cases hv : (config_validation arguments.service_config.config_data
      arguments.service_config_json_schema).1 with
    | false =>
      rw [main_of_invalid arguments hv, performedValidations_of_invalid arguments hv]
      simp
    | true =>
      rw [main_of_valid arguments hv, performedValidations_of_valid arguments hv]
      simp [List.all_eq_true]
  · intro hc _
    exact main_of_valid arguments ((config_validation_fst _ _).mpr hc)

/-- Witness for C7: the conforming-service, zero-mirror run. -/
theorem c7_witness :
    main argsNoMirrors = (0, [LogLine.mk LogLevel.info allValidMsg]) :=
  (c7_success_line_iff_no_failure argsNoMirrors).2 (by decide) rfl

/-- C8: a run is a function of its parsed inputs alone: two runs on the
same unchanged input files yield identical exit codes and identical log
records (the model excludes the wall-clock `asctime` prefix the logging
format prepends, which is not a function of the inputs). -/
theorem c8_two_runs_identical (sc : String × Parsed Json) (ss : String × Parsed Schema)
    (mcs : List (String × Parsed Json)) (ms : Option (String × Parsed Schema))
    (r1 r2 : Except String (Nat × List LogLine))
    (h1 : r1 = processRun sc ss mcs ms) (h2 : r2 = processRun sc ss mcs ms) :
    r1 = r2 := by
  rw [h1, h2]

/-- Witness for C8: two evaluations of the same concrete run agree. -/
theorem c8_witness :
    (Except.ok ((0 : Nat), [LogLine.mk LogLevel.info allValidMsg]) :
      Except String (Nat × List LogLine)) =
    Except.ok ((0 : Nat), [LogLine.mk LogLevel.info allValidMsg]) :=
  c8_two_runs_identical scFileOk ssFile [] none _ _ (by rfl) (by rfl)

/-- C9 as stated is false at this input: supplying a mirror schema file
can change the run — a malformed one aborts argument parsing with an
error exit, while the identical run without `-ms` parses and succeeds. -/
theorem c9_counterexample :
    processRun scFileOk ssFile [] (some msBadFile) ≠ processRun scFileOk ssFile [] none := by
  intro h
  rw [show processRun scFileOk ssFile [] (some msBadFile) =
      Except.error (jsonInvalidMsg ("mirror_schema.json") ("expecting value")) from rfl,
    show processRun scFileOk ssFile [] none =
      Except.ok (main argsNoMirrors) from rfl] at h
  exact Except.noConfusion h

/-- C9 amended: a supplied mirror schema file that parses has no effect
on the run — `main` never reads the parsed value — but a malformed
mirror schema file aborts the run during argument parsing like any other
input file. -/
theorem c9_amended_parsed_mirror_schema_unused (sc : String × Parsed Json)
    (ss : String × Parsed Schema) (mcs : List (String × Parsed Json))
    (p : String) (s : Schema) :
    processRun sc ss mcs (some (p, Parsed.ok s)) = processRun sc ss mcs none := by
  rw [processRun, processRun, parse_args, parse_args]
  cases h1 : YamlFileType_call sc.1 sc.2 with
  | error e => rfl
  | ok service =>
    cases h2 : JsonFileType_call ss.1 ss.2 with
    | error e => rfl
    | ok schema =>
      cases h3 : loadMirrors mcs with
      | error e => rfl
      | ok mirrors =>
        show Except.ok (main (Arguments.mk service schema mirrors (some s))) =
          Except.ok (main (Arguments.mk service schema mirrors none))
        exact congrArg Except.ok
          (main_depends_only_on_service service schema mirrors mirrors (some s) none)

/-- C10: when every input file parses and the service config conforms to
the service schema, the run exits 0 and logs the success line regardless
of the contents of the supplied mirror configs, because each mirror-loop
iteration revalidates the service config data against the service
schema. -/
theorem c10_service_conformance_decides_run (scp ssp : String) (d : Json) (sch : Schema)
    (mcs : List (String × Parsed Json)) (ms : Option (String × Parsed Schema))
    (hm : (mcs.all fun q => !q.2.isBad) = true)
    (hms : (match ms with
            | none => true
            | some q => !q.2.isBad) = true)
    (hc : conforms sch d = true) :
    processRun (scp, Parsed.ok d) (ssp, Parsed.ok sch) mcs ms =
      Except.ok (0, [LogLine.mk LogLevel.info allValidMsg]) := by
  obtain ⟨mirrors, hmir⟩ := loadMirrors_ok mcs hm
  have hval : (config_validation d sch).1 = true := (config_validation_fst d sch).mpr hc
  rw [processRun, parse_args]
  cases ms with
  | none =>
    simp only [YamlFileType_call, JsonFileType_call, hmir]
    show Except.ok (main (Arguments.mk (ConfigFile.mk scp d) sch mirrors none)) = _
    rw [main_of_valid _ hval]
  | some q =>
    obtain ⟨qp, qc⟩ := q
    cases qc with
    | bad e => simp [Parsed.isBad] at hms
    | ok qs =>
      simp only [YamlFileType_call, JsonFileType_call, hmir]
      show Except.ok (main (Arguments.mk (ConfigFile.mk scp d) sch mirrors (some qs))) = _
      rw [main_of_valid _ hval]

/-- Witness for C10: a concrete run whose only mirror config violates
the schema still exits 0 and logs the success line. -/
theorem c10_witness :
    processRun ("config.yml", Parsed.ok goodData) ("schema.json", Parsed.ok nameSchema)
      [("mirror1.yml", Parsed.ok badData)] none =
      Except.ok (0, [LogLine.mk LogLevel.info allValidMsg]) :=
  c10_service_conformance_decides_run ("config.yml") ("schema.json") goodData nameSchema
    [("mirror1.yml", Parsed.ok badData)] none (by decide) (by rfl) (by decide)

end ConfigChecker
